import Mathlib

/-!
Verification of the Budget-Buddy transaction ledger (src/script.js).

The embedding models the `ExpenseTracker` class as a pure state machine:
the in-memory transaction list plus the filter selection. JS numbers are
modelled as rationals extended with NaN and the two infinities (`JSNum`);
the floating-point rounding of doubles plays no role in any property
checked here, so exact rational arithmetic is a faithful model of the
comparisons and sums involved. Host facilities (the clock `Date.now()`,
the ISO timestamp, `localStorage`, `JSON.parse`, locale month formatting)
are passed in as explicit parameters.
-/

namespace BudgetBuddy

/-- A JavaScript number: a finite value (modelled exactly as a rational),
NaN, or one of the two infinities. -/
inductive JSNum where
  | nan : JSNum
  | posInf : JSNum
  | negInf : JSNum
  | num : ℚ → JSNum
deriving DecidableEq

/-- JS `+` on numbers: NaN propagates, opposite infinities give NaN. -/
def jsAdd : JSNum → JSNum → JSNum
  | .nan, _ => .nan
  | _, .nan => .nan
  | .posInf, .negInf => .nan
  | .negInf, .posInf => .nan
  | .posInf, _ => .posInf
  | _, .posInf => .posInf
  | .negInf, _ => .negInf
  | _, .negInf => .negInf
  | .num a, .num b => .num (a + b)

/-- JS unary minus on numbers. -/
def jsNeg : JSNum → JSNum
  | .nan => .nan
  | .posInf => .negInf
  | .negInf => .posInf
  | .num a => .num (-a)

/-- JS `-` on numbers. -/
def jsSub (a b : JSNum) : JSNum := jsAdd a (jsNeg b)

/-- JS `<=` on numbers: any comparison with NaN is false. -/
def jsLe : JSNum → JSNum → Bool
  | .nan, _ => false
  | _, .nan => false
  | .negInf, _ => true
  | _, .posInf => true
  | .posInf, _ => false
  | .num _, .negInf => false
  | .num a, .num b => decide (a ≤ b)

/-! ### parseFloat

`parseFloat` (used at src/script.js:68,72,94,98,288,313) parses the longest
prefix of the (whitespace-trimmed) string that is a signed decimal literal
— optional sign, digits, optional fractional part, optional exponent, or
the literal `Infinity` — and yields NaN when no such prefix exists.
Trailing garbage after a valid prefix is ignored, as in JS. -/

/-- The characters of a string with leading and trailing whitespace
removed: JS `String.prototype.trim` on the underlying character list. -/
def jsTrimList (s : String) : List Char :=
  ((s.toList.dropWhile Char.isWhitespace).reverse.dropWhile Char.isWhitespace).reverse

/-- JS `String.prototype.trim` (used on the title field at src/script.js:274). -/
def jsTrim (s : String) : String := (jsTrimList s).asString

/-- The longest leading run of decimal digits, and the rest. -/
def takeDigits : List Char → List Char × List Char
  | [] => ([], [])
  | c :: cs =>
    if c.isDigit then
      let r := takeDigits cs
      (c :: r.1, r.2)
    else ([], c :: cs)

/-- Digits to the natural number they denote (most significant first). -/
def digitsToNat (ds : List Char) : Nat :=
  ds.foldl (fun n c => 10 * n + (c.toNat - 48)) 0

/-- An optional leading sign: `(isNegative, rest)`. -/
def takeSign : List Char → Bool × List Char
  | '-' :: cs => (true, cs)
  | '+' :: cs => (false, cs)
  | cs => (false, cs)

/-- The exponent denoted by a trailing `e`/`E` part; `0` when absent or
when no digits follow the `e` (JS then stops the parse before the `e`). -/
def takeExp : List Char → Int
  | c :: rest =>
    if c = 'e' ∨ c = 'E' then
      let s := takeSign rest
      let d := takeDigits s.2
      if d.1 = [] then 0
      else if s.1 then -(digitsToNat d.1 : Int) else (digitsToNat d.1 : Int)
    else 0
  | [] => 0

/-- Scale a rational by a (possibly negative) power of ten. -/
def applyExp (q : ℚ) (e : Int) : ℚ :=
  if 0 ≤ e then q * (10 : ℚ) ^ e.toNat else q / (10 : ℚ) ^ (-e).toNat

/-- JS `parseFloat` on a string, in the `JSNum` model. -/
def parseFloat (s : String) : JSNum :=
  let cs0 := jsTrimList s
  let sg := takeSign cs0
  if sg.2.take 8 = "Infinity".toList then
    (if sg.1 then .negInf else .posInf)
  else
    let ip := takeDigits sg.2
    let fp : List Char × List Char :=
      match ip.2 with
      | '.' :: rest => takeDigits rest
      | other => ([], other)
    if ip.1 = [] ∧ fp.1 = [] then .nan
    else
      let mantissa : ℚ :=
        (digitsToNat ip.1 : ℚ) + (digitsToNat fp.1 : ℚ) / (10 : ℚ) ^ fp.1.length
      let v := applyExp mantissa (takeExp fp.2)
      .num (if sg.1 then -v else v)

/-- `parseFloat` applied to a value that is already a number (JS coerces
through its string rendering, which round-trips every double, NaN and the
infinities): the identity in this value model. Used where the source
writes `parseFloat(t.amount)` on a stored numeric amount. -/
def parseFloatOfNum (x : JSNum) : JSNum := x

/-! ### Data model and tracker state -/

/-- A stored transaction record (the shape built at src/script.js:33-37). -/
structure Transaction where
  id : String
  title : String
  amount : JSNum
  type : String
  category : String
  date : String
  timestamp : String
deriving DecidableEq

/-- The input to `addTransaction` (the object built at src/script.js:311-317). -/
structure TxInput where
  title : String
  amount : JSNum
  type : String
  category : String
  date : String
deriving DecidableEq

/-- The filter selection (src/script.js:6-10). -/
structure Filters where
  type : String
  category : String
  month : String
deriving DecidableEq

/-- The tracker's mutable state: the ledger and the filter selection.
(`currentView` is pure navigation state with no effect on these.) -/
structure TrackerState where
  transactions : List Transaction
  filters : Filters
deriving DecidableEq

/-- The filter state the constructor installs (src/script.js:6-10). -/
def initialFilters : Filters := { type := "all", category := "all", month := "all" }

/-- A fresh tracker over an empty ledger. -/
def emptyState : TrackerState := { transactions := [], filters := initialFilters }

/-- A ledger snapshot viewed with the initial (identity) filters. -/
def snapshot (ts : List Transaction) : TrackerState :=
  { transactions := ts, filters := initialFilters }

/-! ### Ledger operations -/

/-- `loadTransactions` (src/script.js:23-26): `data ? JSON.parse(data) : []`.
`stored` is what `localStorage.getItem` returned (`none` = null); `parse`
is the host's `JSON.parse`, which throws (here: `Except.error`) on a
string that is not JSON. JS truthiness makes the empty string take the
`[]` branch. The parsed value is returned without shape validation. -/
def loadTransactions (parse : String → Except String (List Transaction))
    (stored : Option String) : Except String (List Transaction) :=
  match stored with
  | some data => if data == "" then .ok [] else parse data
  | none => .ok []

/-- The record `addTransaction` builds (src/script.js:33-37): the id is
`Date.now().toString()` and the timestamp the host's ISO rendering of the
creation instant. -/
def mkTransaction (now : Nat) (iso : String) (input : TxInput) : Transaction :=
  { id := toString now
    title := input.title
    amount := input.amount
    type := input.type
    category := input.category
    date := input.date
    timestamp := iso }

/-- `addTransaction` (src/script.js:32-42): build the record and `unshift`
it onto the front of the list. (Persistence and rendering are
side-effects on collaborators, outside the state modelled here.) -/
def addTransaction (now : Nat) (iso : String) (input : TxInput)
    (st : TrackerState) : TrackerState :=
  { st with transactions := mkTransaction now iso input :: st.transactions }

/-- A sequence of `addTransaction` calls, oldest first; each call carries
its own clock reading and ISO timestamp. -/
def addAll (calls : List (Nat × String × TxInput)) (st : TrackerState) : TrackerState :=
  calls.foldl (fun s c => addTransaction c.1 c.2.1 c.2.2 s) st

/-- `deleteTransaction` (src/script.js:44-51), its core operation once the
presentation-layer confirmation prompt has accepted:
`this.transactions.filter(t => t.id !== id)`. -/
def deleteTransaction (i : String) (st : TrackerState) : TrackerState :=
  { st with transactions := st.transactions.filter (fun t => t.id != i) }

/-- `clearAllTransactions` (src/script.js:53-60), its core operation once
confirmed: the ledger becomes empty. -/
def clearAllTransactions (st : TrackerState) : TrackerState :=
  { st with transactions := [] }

/-! ### Filtering and aggregation -/

/-- `getFilteredTransactions` (src/script.js:109-115): keep a transaction
iff the type selector is `"all"` or matches, and the category selector is
`"all"` or matches. The month selector is not consulted. -/
def getFilteredTransactions (st : TrackerState) : List Transaction :=
  st.transactions.filter (fun t =>
    (st.filters.type == "all" || t.type == st.filters.type) &&
    (st.filters.category == "all" || t.category == st.filters.category))

/-- The result shape of `calculateTotals`. -/
structure Totals where
  income : JSNum
  expenses : JSNum
  balance : JSNum
deriving DecidableEq

/-- The sum, by JS addition, of the amounts of a list of transactions
(the `reduce((sum, t) => sum + parseFloat(t.amount), 0)` pattern). -/
def sumAmounts (ts : List Transaction) : JSNum :=
  ts.foldl (fun sum t => jsAdd sum (parseFloatOfNum t.amount)) (.num 0)

/-- `calculateTotals` (src/script.js:63-77): totals over the currently
filtered transactions. -/
def calculateTotals (st : TrackerState) : Totals :=
  let filteredTransactions := getFilteredTransactions st
  let income := (filteredTransactions.filter (fun t => t.type == "income")).foldl
    (fun sum t => jsAdd sum (parseFloatOfNum t.amount)) (.num 0)
  let expenses := (filteredTransactions.filter (fun t => t.type == "expense")).foldl
    (fun sum t => jsAdd sum (parseFloatOfNum t.amount)) (.num 0)
  { income := income, expenses := expenses, balance := jsSub income expenses }

/-- The result shape of `calculateMonthlyStats`. -/
structure MonthlyStats where
  count : Nat
  income : JSNum
  expenses : JSNum
  net : JSNum
deriving DecidableEq

/-- `calculateMonthlyStats` (src/script.js:79-106). `monthLabel` is the
host's locale month formatting of a date string
(`new Date(d).toLocaleDateString(...)`); it is only consulted when the
requested month is not `"all"`. -/
def calculateMonthlyStats (monthLabel : String → String) (month : String)
    (st : TrackerState) : MonthlyStats :=
  let filtered :=
    if month != "all" then
      st.transactions.filter (fun t => monthLabel t.date == month)
    else st.transactions
  let income := (filtered.filter (fun t => t.type == "income")).foldl
    (fun sum t => jsAdd sum (parseFloatOfNum t.amount)) (.num 0)
  let expenses := (filtered.filter (fun t => t.type == "expense")).foldl
    (fun sum t => jsAdd sum (parseFloatOfNum t.amount)) (.num 0)
  { count := filtered.length, income := income, expenses := expenses,
    net := jsSub income expenses }

/-! ### Form submission -/

/-- The raw form field values read at src/script.js:274-278: `title` is
read already `.trim()`-ed there; the others are the raw strings. -/
structure FormValues where
  title : String
  amount : String
  type : String
  category : String
  date : String
deriving DecidableEq

/-- The amount check of src/script.js:288: `!amount || parseFloat(amount) <= 0`.
JS `!s` on a string is emptiness; the comparison is false for NaN. -/
def amountInvalid (amount : String) : Bool :=
  amount == "" || jsLe (parseFloat amount) (.num 0)

/-- The validation block of src/script.js:281-306: each failed check sets
`isValid` to false, so submission proceeds iff every check passes. The
`title` field was trimmed when read. -/
def formIsValid (f : FormValues) : Bool :=
  !(jsTrim f.title == "") && !(amountInvalid f.amount) &&
  !(f.type == "") && !(f.category == "") && !(f.date == "")

/-- `handleFormSubmit` (src/script.js:269-327), its effect on the tracker
state: when validation passes, `addTransaction` with the trimmed title and
`parseFloat` of the amount string; otherwise return without adding. -/
def handleFormSubmit (now : Nat) (iso : String) (f : FormValues)
    (st : TrackerState) : TrackerState :=
  if formIsValid f then
    addTransaction now iso
      { title := jsTrim f.title, amount := parseFloat f.amount, type := f.type,
        category := f.category, date := f.date } st
  else st

/-! ### Concrete records used by examples and witnesses -/

/-- The spec's example income transaction (amount 100). -/
def exIncome : Transaction :=
  { id := "1", title := "Salary", amount := .num 100, type := "income",
    category := "salary", date := "2024-01-01", timestamp := "t1" }

/-- The spec's example expense transaction (amount 40). -/
def exExpense : Transaction :=
  { id := "2", title := "Groceries", amount := .num 40, type := "expense",
    category := "food", date := "2024-01-02", timestamp := "t2" }

/-- A concrete one-element ledger used by witnesses. -/
def txW : Transaction :=
  { id := "1", title := "Rent", amount := .num 500, type := "expense",
    category := "rent", date := "2024-02-01", timestamp := "w" }

/-- A concrete tracker state holding just `txW`. -/
def stW : TrackerState := { transactions := [txW], filters := initialFilters }

/-- A concrete valid form submission (amount `"0.01"`). -/
def formW : FormValues :=
  { title := "Coffee", amount := "0.01", type := "expense",
    category := "food", date := "2024-03-01" }

/-- A concrete form submission whose amount string parses to NaN. -/
def formN : FormValues :=
  { title := "Gift", amount := "abc", type := "income",
    category := "salary", date := "2024-05-05" }

/-! ### Helper lemmas -/

/-- With the initial identity filters, filtering keeps everything. -/
theorem getFilteredTransactions_snapshot (ts : List Transaction) :
    getFilteredTransactions (snapshot ts) = ts :=
  List.filter_eq_self.mpr (fun _ _ => rfl)

/-- The ledger after a sequence of adds: the new records in reverse call
order (most recent first), in front of the old ledger. -/
theorem addAll_transactions (calls : List (Nat × String × TxInput)) (st : TrackerState) :
    (addAll calls st).transactions =
      (calls.map (fun c => mkTransaction c.1 c.2.1 c.2.2)).reverse ++ st.transactions := by
  induction calls generalizing st with
  | nil => rfl
  | cons c rest ih =>
    show (addAll rest (addTransaction c.1 c.2.1 c.2.2 st)).transactions = _
    rw [ih]
    simp [addTransaction]

/-! ### The claims -/

/-- C1: for every ledger snapshot, `calculateTotals` returns income = the
sum of amounts of transactions with type `"income"`, expenses = the sum of
amounts with type `"expense"`, and balance = income − expenses; the empty
snapshot yields all zeros, and the spec's two-element example yields
income 100, expenses 40, balance 60. -/
theorem calculateTotals_spec :
    (∀ ts : List Transaction,
      (calculateTotals (snapshot ts)).income =
        sumAmounts (ts.filter (fun t => t.type == "income")) ∧
      (calculateTotals (snapshot ts)).expenses =
        sumAmounts (ts.filter (fun t => t.type == "expense")) ∧
      (calculateTotals (snapshot ts)).balance =
        jsSub (calculateTotals (snapshot ts)).income (calculateTotals (snapshot ts)).expenses) ∧
    calculateTotals (snapshot []) =
      { income := .num 0, expenses := .num 0, balance := .num 0 } ∧
    calculateTotals (snapshot [exIncome, exExpense]) =
      { income := .num 100, expenses := .num 40, balance := .num 60 } := by
  refine ⟨fun ts => ?_, ?_, ?_⟩
  · unfold calculateTotals
    rw [getFilteredTransactions_snapshot]
    exact ⟨rfl, rfl, rfl⟩
  · show Totals.mk (.num 0) (.num 0) (jsSub (.num 0) (.num 0)) = _
    simp [jsSub, jsAdd, jsNeg]
  · show Totals.mk (.num ((0 : ℚ) + 100)) (.num ((0 : ℚ) + 40))
      (jsSub (.num ((0 : ℚ) + 100)) (.num ((0 : ℚ) + 40))) = _
    simp [jsSub, jsAdd, jsNeg]
    norm_num

/-- C2 (code bug): two `addTransaction` calls within the same clock
instant (`Date.now()` returning 1000 both times) assign both transactions
the id `"1000"`, so the resulting ledger has duplicate ids — the id is
`Date.now().toString()`, nothing disambiguates same-instant calls. -/
theorem addTransaction_same_instant_duplicate_id :
    ((addTransaction 1000 "1970-01-01T00:00:01.000Z"
        { title := "Tea", amount := .num 2, type := "expense", category := "food",
          date := "2024-05-01" }
        (addTransaction 1000 "1970-01-01T00:00:01.000Z"
          { title := "Coffee", amount := .num 3, type := "expense", category := "food",
            date := "2024-05-01" }
          emptyState)).transactions.map Transaction.id) = ["1000", "1000"] ∧
    ¬ ((addTransaction 1000 "1970-01-01T00:00:01.000Z"
        { title := "Tea", amount := .num 2, type := "expense", category := "food",
          date := "2024-05-01" }
        (addTransaction 1000 "1970-01-01T00:00:01.000Z"
          { title := "Coffee", amount := .num 3, type := "expense", category := "food",
            date := "2024-05-01" }
          emptyState)).transactions.map Transaction.id).Nodup := by
  constructor
  · rfl
  · decide

/-- C3: `calculateMonthlyStats` with month `"all"` agrees with the totals
of the full unfiltered transaction set, whatever the current filter state
and whatever the host's locale month formatting: count = list length,
income/expenses match, net = balance. -/
theorem calculateMonthlyStats_all_spec :
    ∀ (monthLabel : String → String) (st : TrackerState),
      (calculateMonthlyStats monthLabel "all" st).count = st.transactions.length ∧
      (calculateMonthlyStats monthLabel "all" st).income =
        (calculateTotals (snapshot st.transactions)).income ∧
      (calculateMonthlyStats monthLabel "all" st).expenses =
        (calculateTotals (snapshot st.transactions)).expenses ∧
      (calculateMonthlyStats monthLabel "all" st).net =
        (calculateTotals (snapshot st.transactions)).balance := by
  intro ml st
  unfold calculateMonthlyStats calculateTotals
  rw [getFilteredTransactions_snapshot]
  exact ⟨rfl, rfl, rfl, rfl⟩

/-- C4 (counterexample): when the stored value is present but is not
parseable JSON (here `"\x7b"`, with the host `JSON.parse` raising a
syntax error on it), `loadTransactions` propagates the error to the
caller instead of returning the empty sequence — there is no exception
handling around `JSON.parse`. -/
theorem loadTransactions_corrupt_error :
    loadTransactions (fun _ => .error "SyntaxError: Unexpected end of JSON input")
      (some "\x7b") = .error "SyntaxError: Unexpected end of JSON input" ∧
    loadTransactions (fun _ => .error "SyntaxError: Unexpected end of JSON input")
      (some "\x7b") ≠ .ok [] := by
  refine ⟨rfl, fun h => ?_⟩
  exact Except.noConfusion h

/-- C4 (amended): `loadTransactions` returns the empty sequence when the
stored value is absent or the empty string; when a non-empty value is
present it returns whatever the host parse yields — a successful parse is
returned without shape validation, and a parse failure propagates to the
caller. -/
theorem loadTransactions_spec :
    ∀ (parse : String → Except String (List Transaction)) (s : String),
      loadTransactions parse none = .ok [] ∧
      loadTransactions parse (some "") = .ok [] ∧
      (s ≠ "" → loadTransactions parse (some s) = parse s) := by
  intro parse s
  refine ⟨rfl, rfl, fun h => ?_⟩
  simp [loadTransactions, h]

/-- C6: the filtered view keeps a transaction iff the type selector is
`"all"` or matches and the category selector is `"all"` or matches; it is
a sublist of the ledger (relative order preserved); and the month
selector never affects it. -/
theorem getFilteredTransactions_spec :
    ∀ (st : TrackerState) (m : String),
      (∀ t, t ∈ getFilteredTransactions st ↔
        (t ∈ st.transactions ∧
          (st.filters.type = "all" ∨ t.type = st.filters.type) ∧
          (st.filters.category = "all" ∨ t.category = st.filters.category))) ∧
      (getFilteredTransactions st).Sublist st.transactions ∧
      getFilteredTransactions { st with filters := { st.filters with month := m } } =
        getFilteredTransactions st := by
  intro st m
  refine ⟨fun t => ?_, List.filter_sublist _, rfl⟩
  simp [getFilteredTransactions, List.mem_filter, and_assoc]

/-- C7: each add inserts the new record at the front and leaves the rest
unchanged, so the ledger is in most-recent-insertion-first order; the
order depends only on the call sequence, never on the `date` fields — the
spec's three-date example comes out in reverse insertion order. -/
theorem addTransaction_insertion_order :
    (∀ (now : Nat) (iso : String) (input : TxInput) (st : TrackerState),
      (addTransaction now iso input st).transactions =
        mkTransaction now iso input :: st.transactions) ∧
    (∀ (calls : List (Nat × String × TxInput)) (st : TrackerState),
      (addAll calls st).transactions =
        (calls.map (fun c => mkTransaction c.1 c.2.1 c.2.2)).reverse ++ st.transactions) ∧
    ((addAll
        [(1, "a", { title := "t1", amount := .num 1, type := "expense",
                    category := "food", date := "2020-01-01" }),
         (2, "b", { title := "t2", amount := .num 2, type := "income",
                    category := "salary", date := "2099-01-01" }),
         (3, "c", { title := "t3", amount := .num 3, type := "expense",
                    category := "travel", date := "2010-01-01" })] emptyState).transactions.map
      Transaction.date) = ["2010-01-01", "2099-01-01", "2020-01-01"] :=
  ⟨fun _ _ _ _ => rfl, addAll_transactions, by decide⟩

/-- C8: deleting an id that is not in the ledger leaves the state
unchanged; delete is idempotent, clear is idempotent, and delete on a
cleared (empty) ledger is a no-op — all four are total operations, no
error path exists. -/
theorem ledger_delete_clear_spec (st : TrackerState) (i : String)
    (h : i ∉ st.transactions.map Transaction.id) :
    deleteTransaction i st = st ∧
    deleteTransaction i (deleteTransaction i st) = deleteTransaction i st ∧
    clearAllTransactions (clearAllTransactions st) = clearAllTransactions st ∧
    deleteTransaction i (clearAllTransactions st) = clearAllTransactions st := by
  have h1 : st.transactions.filter (fun t => t.id != i) = st.transactions := by
    refine List.filter_eq_self.mpr (fun t ht => ?_)
    have : t.id ≠ i := fun e => h (e ▸ List.mem_map_of_mem Transaction.id ht)
    simpa [bne_iff_ne] using this
  have e1 : deleteTransaction i st = st := by
    unfold deleteTransaction
    rw [h1]
  exact ⟨e1, by simp only [e1], rfl, rfl⟩

/-- C8 witness: the properties at a concrete one-element ledger and the
absent id `"99"`. -/
theorem ledger_delete_clear_spec_witness :
    deleteTransaction "99" stW = stW ∧
    deleteTransaction "99" (deleteTransaction "99" stW) = deleteTransaction "99" stW ∧
    clearAllTransactions (clearAllTransactions stW) = clearAllTransactions stW ∧
    deleteTransaction "99" (clearAllTransactions stW) = clearAllTransactions stW :=
  ledger_delete_clear_spec stW "99" (by decide)

/-- C9: delete removes every transaction whose id equals the given id (no
survivor carries that id), keeps the survivors in their original relative
order (sublist), and preserves the multiplicity of every transaction
whose id differs. -/
theorem deleteTransaction_spec :
    ∀ (st : TrackerState) (i : String),
      (∀ t ∈ (deleteTransaction i st).transactions, t.id ≠ i) ∧
      ((deleteTransaction i st).transactions).Sublist st.transactions ∧
      (∀ t : Transaction, t.id ≠ i →
        (deleteTransaction i st).transactions.count t = st.transactions.count t) := by
  intro st i
  refine ⟨fun t ht => ?_, List.filter_sublist _, fun t ht => ?_⟩
  · have := List.of_mem_filter ht
    simpa [bne_iff_ne] using this
  · show (st.transactions.filter (fun t => t.id != i)).count t = st.transactions.count t
    rw [List.count_filter]
    simp [bne_iff_ne, ht]

/-! ### Concrete parseFloat values -/

/-- `parseFloat "0"` is zero. -/
theorem parseFloat_zero : parseFloat "0" = .num 0 := by
  show JSNum.num ((((0 : ℕ) : ℚ) + ((0 : ℕ) : ℚ) / (10 : ℚ) ^ (0 : ℕ)) * (10 : ℚ) ^ (0 : ℕ)) = _
  norm_num

/-- `parseFloat "-5"` is minus five. -/
theorem parseFloat_neg_five : parseFloat "-5" = .num (-5) := by
  show JSNum.num (-((((5 : ℕ) : ℚ) + ((0 : ℕ) : ℚ) / (10 : ℚ) ^ (0 : ℕ)) * (10 : ℚ) ^ (0 : ℕ))) = _
  norm_num

/-- `parseFloat "0.01"` is one hundredth. -/
theorem parseFloat_cent : parseFloat "0.01" = .num (1 / 100) := by
  show JSNum.num ((((0 : ℕ) : ℚ) + ((1 : ℕ) : ℚ) / (10 : ℚ) ^ (2 : ℕ)) * (10 : ℚ) ^ (0 : ℕ)) = _
  norm_num

/-- `parseFloat "abc"` is NaN. -/
theorem parseFloat_abc : parseFloat "abc" = .nan := rfl

/-- The amount check passes `"0.01"` and fails `"0"` and `"-5"`. -/
theorem jsLe_parseFloat_examples :
    jsLe (parseFloat "0") (.num 0) = true ∧
    jsLe (parseFloat "-5") (.num 0) = true ∧
    jsLe (parseFloat "0.01") (.num 0) = false := by
  rw [parseFloat_zero, parseFloat_neg_five, parseFloat_cent]
  refine ⟨?_, ?_, ?_⟩ <;> simp [jsLe]

/-- C5 (counterexample): the form input with title `"Lunch"` and amount
string `"abc"` — whose `parseFloat` is NaN, not a positive finite number —
passes validation (`NaN <= 0` is false in JS) and a transaction with
amount NaN is added, so the add path does not reject every non-positive-
finite amount. -/
theorem handleFormSubmit_nan_accepted :
    (handleFormSubmit 7 "ts7"
      { title := "Lunch", amount := "abc", type := "expense", category := "food",
        date := "2024-03-01" } emptyState).transactions =
    [{ id := "7", title := "Lunch", amount := .nan, type := "expense", category := "food",
       date := "2024-03-01", timestamp := "ts7" }] ∧
    parseFloat "abc" = .nan := ⟨rfl, rfl⟩

/-- C5 (amended): with the other selectors non-empty, the add path
rejects — returns with the ledger unchanged — exactly when the trimmed
title is empty, the amount string is empty, or `parseFloat` of the amount
compares `<= 0` in JS (so NaN and Infinity amounts are accepted, not
rejected); in particular `"0"` and `"-5"` are rejected and `"0.01"` is
accepted; on any rejection the state is returned unchanged. -/
theorem handleFormSubmit_validation_spec (now : Nat) (iso : String) (f : FormValues)
    (st : TrackerState) (hty : f.type ≠ "") (hcat : f.category ≠ "") (hdate : f.date ≠ "") :
    ((handleFormSubmit now iso f st).transactions = st.transactions ↔
      (jsTrim f.title = "" ∨ f.amount = "" ∨ jsLe (parseFloat f.amount) (.num 0) = true)) ∧
    (formIsValid f = false → handleFormSubmit now iso f st = st) ∧
    jsLe (parseFloat "0") (.num 0) = true ∧
    jsLe (parseFloat "-5") (.num 0) = true ∧
    jsLe (parseFloat "0.01") (.num 0) = false := by
  have hrej : formIsValid f = false → handleFormSubmit now iso f st = st := by
    intro hv
    simp [handleFormSubmit, hv]
  refine ⟨?_, hrej, jsLe_parseFloat_examples.1, jsLe_parseFloat_examples.2.1,
    jsLe_parseFloat_examples.2.2⟩
  by_cases hv : formIsValid f
  · have hne : (handleFormSubmit now iso f st).transactions ≠ st.transactions := by
      simp [handleFormSubmit, hv, addTransaction]
    have hok : ¬ (jsTrim f.title = "" ∨ f.amount = "" ∨
        jsLe (parseFloat f.amount) (.num 0) = true) := by
      simp only [formIsValid, amountInvalid, Bool.and_eq_true, Bool.not_eq_true',
        Bool.or_eq_false_iff, beq_eq_false_iff_ne] at hv
      push_neg
      exact ⟨hv.1.1.1.1, hv.1.1.1.2.1, by simp [hv.1.1.1.2.2]⟩
    exact iff_of_false hne hok
  · have hv' : formIsValid f = false := by simpa using hv
    refine iff_of_true (by rw [hrej hv']) ?_
    by_cases h1 : jsTrim f.title = ""
    · exact Or.inl h1
    by_cases h2 : f.amount = ""
    · exact Or.inr (Or.inl h2)
    by_cases h3 : jsLe (parseFloat f.amount) (.num 0) = true
    · exact Or.inr (Or.inr h3)
    have h3' : jsLe (parseFloat f.amount) (.num 0) = false := by
      cases hb : jsLe (parseFloat f.amount) (.num 0)
      · rfl
      · exact absurd hb h3
    have ht : formIsValid f = true := by
      simp [formIsValid, amountInvalid, h1, h2, h3', hty, hcat, hdate]
    rw [ht] at hv'
    exact Bool.noConfusion hv'

/-- C5 witness: the amended property at the concrete valid form `formW`
(amount `"0.01"`) over the one-element ledger `stW`. -/
theorem handleFormSubmit_validation_spec_witness :
    ((handleFormSubmit 1 "w1" formW stW).transactions = stW.transactions ↔
      (jsTrim formW.title = "" ∨ formW.amount = "" ∨
        jsLe (parseFloat formW.amount) (.num 0) = true)) ∧
    (formIsValid formW = false → handleFormSubmit 1 "w1" formW stW = stW) ∧
    jsLe (parseFloat "0") (.num 0) = true ∧
    jsLe (parseFloat "-5") (.num 0) = true ∧
    jsLe (parseFloat "0.01") (.num 0) = false :=
  handleFormSubmit_validation_spec 1 "w1" formW stW (by decide) (by decide) (by decide)

/-- C10: the amount validation fails exactly when the amount string is
empty or its `parseFloat` compares `<= 0` in JS; a non-empty amount whose
`parseFloat` is NaN passes every check, and the submitted transaction is
added to the front of the ledger with amount NaN. -/
theorem amount_validation_nan_spec (now : Nat) (iso : String) (f : FormValues)
    (st : TrackerState) (hti : jsTrim f.title ≠ "") (ham : f.amount ≠ "")
    (hnan : parseFloat f.amount = .nan) (hty : f.type ≠ "") (hcat : f.category ≠ "")
    (hdate : f.date ≠ "") :
    (∀ s : String, amountInvalid s = true ↔ (s = "" ∨ jsLe (parseFloat s) (.num 0) = true)) ∧
    amountInvalid f.amount = false ∧
    (handleFormSubmit now iso f st).transactions =
      mkTransaction now iso
        { title := jsTrim f.title, amount := .nan, type := f.type, category := f.category,
          date := f.date } :: st.transactions := by
  have hai : amountInvalid f.amount = false := by
    simp [amountInvalid, ham, hnan, jsLe]
  have hvalid : formIsValid f = true := by
    simp [formIsValid, hti, hty, hcat, hdate, hai]
  refine ⟨fun s => by simp [amountInvalid], hai, ?_⟩
  simp [handleFormSubmit, hvalid, addTransaction, hnan]

/-- C10 witness: the property at the concrete form `formN` (amount
`"abc"`) over the one-element ledger `stW`. -/
theorem amount_validation_nan_spec_witness :
    (∀ s : String, amountInvalid s = true ↔ (s = "" ∨ jsLe (parseFloat s) (.num 0) = true)) ∧
    amountInvalid formN.amount = false ∧
    (handleFormSubmit 2 "w2" formN stW).transactions =
      mkTransaction 2 "w2"
        { title := jsTrim formN.title, amount := .nan, type := formN.type,
          category := formN.category, date := formN.date } :: stW.transactions :=
  amount_validation_nan_spec 2 "w2" formN stW (by decide) (by decide) (by decide)
    (by decide) (by decide) (by decide)

end BudgetBuddy
